import Mathlib

/-!
Verification of the LiteX/Amaranth SpaceWire register bridge
(`litex_amaranth_spacewire/__init__.py`).

The file embeds, as Lean definitions:
  * the CSR register-map declaration made in `SpWNode.__init__`
    (the five `CSRStatus`/`CSRStorage` declarations);
  * the combinational block `self.comb += [...]` wiring CSR fields to
    hardware-core signals;
  * the sequential behaviour of the LiteX CSR primitives (write strobes,
    storage, pulse fields), which live in the external LiteX library and
    are therefore modelled from the spec;
  * the static method `SpWNode.elaborate` and `SpWNode.do_finalize`,
    which drive the external code generator.
-/

namespace SpW

/-! ## Register-map declaration (source lines 56-80) -/

/-- A `CSRField(name, size=..., offset=..., pulse=...)` declaration.
`pulse` defaults to `false` as in LiteX. -/
structure CSRFieldDecl where
  fname : String
  size : Nat
  offset : Nat
  pulse : Bool
deriving DecidableEq, Repr

/-- Direction of a CSR register: read-only `CSRStatus` or read/write
`CSRStorage`. -/
inductive CSRKind where
  | status
  | storage
deriving DecidableEq, Repr

/-- A `CSRStatus`/`CSRStorage` register declaration. -/
structure CSRDecl where
  rname : String
  kind : CSRKind
  fields : List CSRFieldDecl
deriving DecidableEq, Repr

/-- `self._status = CSRStatus(fields=[...], name="status")`, lines 56-62. -/
def status_csr : CSRDecl :=
  { rname := "status", kind := .status,
    fields :=
      [ { fname := "data_available", size := 1, offset := 0, pulse := false },
        { fname := "link_state", size := 4, offset := 1, pulse := false },
        { fname := "link_error_flags", size := 4, offset := 5, pulse := false },
        { fname := "link_tx_credit", size := 6, offset := 9, pulse := false },
        { fname := "link_rx_credit", size := 6, offset := 15, pulse := false } ] }

/-- `self._time_value = CSRStatus(fields=[...], name="time")`, lines 63-66.
In the source this declaration is executed unconditionally: it does not
depend on the `time_master` constructor argument. -/
def time_csr : CSRDecl :=
  { rname := "time", kind := .status,
    fields :=
      [ { fname := "time", size := 6, offset := 0, pulse := false },
        { fname := "flags", size := 2, offset := 6, pulse := false } ] }

/-- `self._fifo_r = CSRStatus(fields=[...], name="fifo_r")`, lines 67-69. -/
def fifo_r_csr : CSRDecl :=
  { rname := "fifo_r", kind := .status,
    fields := [ { fname := "data_r", size := 8, offset := 0, pulse := false } ] }

/-- `self._control = CSRStorage(fields=[...], name="control")`, lines 70-77. -/
def control_csr : CSRDecl :=
  { rname := "control", kind := .storage,
    fields :=
      [ { fname := "soft_reset", size := 1, offset := 0, pulse := true },
        { fname := "link_disabled", size := 1, offset := 1, pulse := false },
        { fname := "link_start", size := 1, offset := 2, pulse := false },
        { fname := "auto_start", size := 1, offset := 3, pulse := false },
        { fname := "user_freq", size := 1, offset := 4, pulse := false },
        { fname := "link_error_clear", size := 1, offset := 5, pulse := true } ] }

/-- `self._fifo_w = CSRStorage(fields=[...], name="fifo_w")`, lines 78-80. -/
def fifo_w_csr : CSRDecl :=
  { rname := "fifo_w", kind := .storage,
    fields := [ { fname := "data_w", size := 8, offset := 0, pulse := false } ] }

/-- The register map declared by `SpWNode.__init__`.  `AutoCSR` collects
every CSR attribute of the module; all five registers are created by
straight-line code in `__init__`, so the map is the same for every value
of the `time_master` argument (the argument is only stored in
`self._time_master` for later use by `do_finalize`, line 28). -/
def spwNodeCSRs (time_master : Bool) : List CSRDecl :=
  [status_csr, time_csr, fifo_r_csr, control_csr, fifo_w_csr]

/-- Names of the registers in the map. -/
def spwNodeCSRNames (time_master : Bool) : List String :=
  (spwNodeCSRs time_master).map CSRDecl.rname

/-- Declared width of the `link_state` hardware signal:
`self.link_state = Signal(3)`, line 43. -/
def link_state_signal_width : Nat := 3

/-- Size of a named field of a register declaration (0 if absent). -/
def fieldSize (r : CSRDecl) (n : String) : Nat :=
  match r.fields.find? (fun f => f.fname = n) with
  | some f => f.size
  | none => 0

/-! ## Hardware-core outputs

The signals driven by the generated `amaranth_spacewire_node` instance
(output ports `o_*` of `self.node_params`, lines 84-122).  Multi-bit
signals are natural numbers; a width invariant (`x < 2^w`) is carried as
a hypothesis where a theorem needs it. -/

structure CoreOutputs where
  r_data : Nat            -- `o_r_data`, 8 bits
  r_rdy : Bool            -- `o_r_rdy`
  w_rdy : Bool            -- `o_w_rdy`
  link_state : Nat        -- `o_link_state`, 3 bits
  link_error_flags : Nat  -- `o_link_error_flags`, 4 bits
  link_tx_credit : Nat    -- `o_link_tx_credit`, 6 bits
  link_rx_credit : Nat    -- `o_link_rx_credit`, 6 bits
  time_flags : Nat        -- `o_time_flags`, 2 bits
  time_value : Nat        -- `o_time_value`, 6 bits
deriving DecidableEq, Repr

/-! ## LiteX CSR sequential semantics (modelled from the spec)

The CSR primitives (`CSRStorage`, `CSRStatus`) come from the LiteX
library, outside this repository.  Their behaviour is modelled from the
spec: a `CSRStorage` write updates the stored fields and asserts the
one-cycle strobe `re`; a field declared with `pulse=True` reads back the
written bit for exactly that one cycle and auto-clears afterwards, while
level fields persist; a `CSRStatus` ignores host writes and asserts its
strobe `we` for one cycle when the register is read. -/

/-- State of the `control` CSRStorage: one stored bit per declared field
(lines 70-77). -/
structure ControlStorage where
  soft_reset : Bool        -- pulse field, bit 0
  link_disabled : Bool     -- level field, bit 1
  link_start : Bool        -- level field, bit 2
  auto_start : Bool        -- level field, bit 3
  user_freq : Bool         -- level field, bit 4
  link_error_clear : Bool  -- pulse field, bit 5
deriving DecidableEq, Repr

/-- Modelled from the spec: one clock step of the `control` CSRStorage.
`wr = some v` means the host bus wrote value `v` to the register on this
edge; `wr = none` means no write.  Level fields keep their value when
not written; the two `pulse=True` fields auto-clear. -/
def controlStep (s : ControlStorage) (wr : Option Nat) : ControlStorage :=
  match wr with
  | none =>
      { s with soft_reset := false, link_error_clear := false }
  | some v =>
      { soft_reset := v.testBit 0
        link_disabled := v.testBit 1
        link_start := v.testBit 2
        auto_start := v.testBit 3
        user_freq := v.testBit 4
        link_error_clear := v.testBit 5 }

/-- State of the `fifo_w` CSRStorage (lines 78-80): the stored 8-bit
`data_w` field and the one-cycle write strobe `re`. -/
structure FifoWStorage where
  data_w : Nat
  re : Bool
deriving DecidableEq, Repr

/-- Modelled from the spec: one clock step of the `fifo_w` CSRStorage.
A write latches the low 8 bits of the written value into the level field
`data_w` and asserts `re` for this one cycle; otherwise `re` is low and
the stored byte persists. -/
def fifoWStep (s : FifoWStorage) (wr : Option Nat) : FifoWStorage :=
  match wr with
  | none => { s with re := false }
  | some v => { data_w := v % 2 ^ 8, re := true }

/-- One host-bus transaction per clock cycle, addressed to one of the
declared registers (or none). -/
inductive BusOp where
  | idle
  | writeControl (v : Nat)
  | writeFifoW (v : Nat)
  | writeStatus (v : Nat)   -- write addressed to the read-only `status`
  | writeTime (v : Nat)     -- write addressed to the read-only `time`
  | writeFifoR (v : Nat)    -- write addressed to the read-only `fifo_r`
  | readFifoR               -- read of `fifo_r` (asserts its `we` strobe)
deriving DecidableEq, Repr

/-- The sequential state the bridge holds: the two CSRStorage registers
and the read strobe of the `fifo_r` CSRStatus.  (All other registers are
CSRStatus mirrors with no storage of their own.) -/
structure BridgeState where
  control : ControlStorage
  fifo_w : FifoWStorage
  fifo_r_we : Bool
deriving DecidableEq, Repr

/-- Modelled from the spec: one clock step of the bridge's CSR state
under a host-bus transaction.  Writes addressed to a `CSRStatus`
register are ignored by LiteX; only `writeControl` and `writeFifoW`
reach storage. -/
def bridgeStep (s : BridgeState) (op : BusOp) : BridgeState :=
  match op with
  | .writeControl v =>
      { control := controlStep s.control (some v),
        fifo_w := fifoWStep s.fifo_w none,
        fifo_r_we := false }
  | .writeFifoW v =>
      { control := controlStep s.control none,
        fifo_w := fifoWStep s.fifo_w (some v),
        fifo_r_we := false }
  | .readFifoR =>
      { control := controlStep s.control none,
        fifo_w := fifoWStep s.fifo_w none,
        fifo_r_we := true }
  | _ =>
      { control := controlStep s.control none,
        fifo_w := fifoWStep s.fifo_w none,
        fifo_r_we := false }

/-! ## The combinational block (source lines 124-143) -/

/-- Every signal assigned in the `self.comb += [...]` block of
`SpWNode.__init__` (lines 124-143), plus the two fields of the `time`
CSRStatus, which that block never assigns. -/
structure BridgeComb where
  -- status CSR fields (lines 125-129)
  status_data_available : Bool
  status_link_state : Nat
  status_link_error_flags : Nat
  status_link_tx_credit : Nat
  status_link_rx_credit : Nat
  -- core control inputs (lines 131-136)
  soft_reset : Bool
  link_disabled : Bool
  link_start : Bool
  autostart : Bool
  switch_to_user_tx_freq : Bool
  link_error_clear : Bool
  -- FIFO write path (lines 138-139)
  w_en : Bool
  w_data : Nat
  -- FIFO read path (lines 141-142)
  fifo_r_data_r : Nat
  r_en : Bool
  -- `time` CSR fields: NOT assigned anywhere in the comb block; an
  -- undriven CSRStatus status signal holds its reset value 0.
  time_time : Nat
  time_flags : Nat
deriving DecidableEq, Repr

/-- The combinational mappings of lines 124-143, as a pure function of
the current CSR state and the hardware-core outputs.  Assignments to a
multi-bit field truncate to the target field's declared width, as the
hardware does. -/
def bridgeComb (s : BridgeState) (o : CoreOutputs) : BridgeComb :=
  { status_data_available := o.r_rdy
    status_link_state := o.link_state % 2 ^ 4
    status_link_error_flags := o.link_error_flags % 2 ^ 4
    status_link_tx_credit := o.link_tx_credit % 2 ^ 6
    status_link_rx_credit := o.link_rx_credit % 2 ^ 6
    soft_reset := s.control.soft_reset
    link_disabled := s.control.link_disabled
    link_start := s.control.link_start
    autostart := s.control.auto_start
    switch_to_user_tx_freq := s.control.user_freq
    link_error_clear := s.control.link_error_clear
    w_en := s.fifo_w.re
    w_data := s.fifo_w.data_w % 2 ^ 8
    fifo_r_data_r := o.r_data % 2 ^ 8
    r_en := s.fifo_r_we
    time_time := 0
    time_flags := 0 }

/-! ## The elaboration driver (source lines 152-180) -/

/-- The parameters `SpWNode.elaborate` receives (via `do_finalize` from
the constructor arguments).  Frequencies and token counts are integers;
the Python code performs no validation on them, it only formats them
into strings. -/
structure ElabParams where
  time_master : Bool
  src_freq : Int
  reset_freq : Int
  user_freq : Int
  rx_tokens : Int
  tx_tokens : Int
deriving DecidableEq, Repr

/-- The `cli_params` list built in `SpWNode.elaborate`, lines 154-163:
optional `--time-master`, then the five value flags in source order,
then the fixed action `generate --type=v`. -/
def cliParams (p : ElabParams) : List String :=
  (if p.time_master then ["--time-master"] else []) ++
    [ "--src-freq=" ++ toString p.src_freq,
      "--rx-tokens=" ++ toString p.rx_tokens,
      "--tx-tokens=" ++ toString p.tx_tokens,
      "--reset-freq=" ++ toString p.reset_freq,
      "--user-freq=" ++ toString p.user_freq,
      "generate",
      "--type=v" ]

/-- The full argument vector passed to `subprocess.call` (line 165):
`["python3", sdir/cli.py, *cli_params]`.  `cliPath` abstracts the
`os.path.join(sdir, "cli.py")` path, which depends on the install
location. -/
def elabCmd (cliPath : String) (p : ElabParams) : List String :=
  "python3" :: cliPath :: cliParams p

/-- The message of the `OSError` raised on a non-zero exit, line 167. -/
def elabErrMsg : String :=
  "Unable to elaborate amaranth-spacewire core, please check your Amaranth/Yosys install"

/-- Observable effect of one `SpWNode.elaborate` call: which file was
opened for the child's standard output, what that output was, and the
Python return value or raised error.  A successful Python call falls off
the end of the function, i.e. returns `None`: the success value is
`Option.none`, never a path. -/
structure ElabEffect where
  outFile : String
  content : String
  result : Except String (Option String)
deriving Repr

/-- `SpWNode.elaborate` (lines 152-167).  The external generator process
is abstracted as an oracle `proc` mapping an argument vector to an exit
status and a standard-output text.  The child's stdout goes verbatim to
`verilog_filename` (the file is opened before the call, so it is written
even when the exit status is non-zero); a non-zero status raises
`OSError(elabErrMsg)`, otherwise the function returns `None`. -/
def elaborate (proc : List String → Int × String) (cliPath : String)
    (p : ElabParams) (verilog_filename : String) : ElabEffect :=
  let r := proc (elabCmd cliPath p)
  { outFile := verilog_filename
    content := r.2
    result := if r.1 ≠ 0 then Except.error elabErrMsg else Except.ok none }

/-- Observable effect of `SpWNode.do_finalize` (lines 169-180): the
elaborate call's effect paired with the list of files passed to
`platform.add_source` (empty when `elaborate` raised, since the
exception aborts `do_finalize` before `add_source`). -/
structure FinalizeEffect where
  elab_effect : ElabEffect
  added_sources : List String
deriving Repr

/-- `SpWNode.do_finalize` (lines 169-180): builds
`output_dir/gateware/amaranth_spacewire.v`, calls `elaborate` with it,
and on success registers that same file with `platform.add_source`. -/
def do_finalize (proc : List String → Int × String) (cliPath : String)
    (output_dir : String) (p : ElabParams) : FinalizeEffect :=
  let f := output_dir ++ "/gateware/amaranth_spacewire.v"
  let e := elaborate proc cliPath p f
  match e.result with
  | Except.error _ => { elab_effect := e, added_sources := [] }
  | Except.ok _ => { elab_effect := e, added_sources := [f] }

/-! ## Helper lemmas -/

/-- A string whose first `pre.data.length` characters differ from `pre`
cannot be `pre ++ s` for any `s`. -/
theorem ne_append_of_take_ne (t pre s : String)
    (h : t.data.take pre.data.length ≠ pre.data) : t ≠ pre ++ s := by
  intro he
  apply h
  have hd : t.data = pre.data ++ s.data := by
    rw [he, String.data_append]
  rw [hd, List.take_left]

/-! ## Theorems for the claims -/

/-- C1: a host write to the `control` register drives the internal
`soft_reset` and `link_error_clear` signals (combinationally mapped on
lines 131 and 136 from the two `pulse=True` fields) equal to the written
bit for exactly the cycle of the write, and both are deasserted on the
immediately following cycle provided that cycle carries no new write to
`control`; writing 0 never produces a pulse. -/
theorem C1_pulse_fields_one_cycle (s : BridgeState) (o : CoreOutputs) (v : Nat)
    (op : BusOp) (hop : ∀ w, op ≠ BusOp.writeControl w) :
    ((bridgeComb (bridgeStep s (BusOp.writeControl v)) o).soft_reset = v.testBit 0 ∧
      (bridgeComb (bridgeStep (bridgeStep s (BusOp.writeControl v)) op) o).soft_reset = false) ∧
    ((bridgeComb (bridgeStep s (BusOp.writeControl v)) o).link_error_clear = v.testBit 5 ∧
      (bridgeComb (bridgeStep (bridgeStep s (BusOp.writeControl v)) op) o).link_error_clear
        = false) := by
  cases op with
  | writeControl w => exact absurd rfl (hop w)
  | _ => simp [bridgeStep, bridgeComb, controlStep, fifoWStep]

/-- Witness for C1 at a concrete write of value 1 followed by an idle
cycle: `soft_reset` is asserted in the write cycle and deasserted in the
next one. -/
theorem C1_pulse_fields_one_cycle_witness :
    (bridgeComb (bridgeStep
        { control := ⟨false, false, false, false, false, false⟩,
          fifo_w := ⟨0, false⟩, fifo_r_we := false }
        (BusOp.writeControl 1)) ⟨0, false, false, 0, 0, 0, 0, 0, 0⟩).soft_reset
      = Nat.testBit 1 0 ∧
    (bridgeComb (bridgeStep (bridgeStep
        { control := ⟨false, false, false, false, false, false⟩,
          fifo_w := ⟨0, false⟩, fifo_r_we := false }
        (BusOp.writeControl 1)) BusOp.idle) ⟨0, false, false, 0, 0, 0, 0, 0, 0⟩).soft_reset
      = false :=
  ((C1_pulse_fields_one_cycle
      { control := ⟨false, false, false, false, false, false⟩,
        fifo_w := ⟨0, false⟩, fifo_r_we := false }
      ⟨0, false, false, 0, 0, 0, 0, 0, 0⟩ 1 BusOp.idle (by intro w h; cases h)).1)

/-- C2: every field of the `status` register mirrors its mapped core
signal in the same cycle (lines 125-129): `data_available = r_rdy`,
`link_state`, `link_error_flags`, `link_tx_credit`, `link_rx_credit`
equal the like-named core outputs (given the signals' declared widths),
and a host write addressed to the `status` register changes the bridge
state exactly as an idle cycle does. -/
theorem C2_status_mirror (s : BridgeState) (o : CoreOutputs)
    (hls : o.link_state < 2 ^ 3) (hef : o.link_error_flags < 2 ^ 4)
    (htc : o.link_tx_credit < 2 ^ 6) (hrc : o.link_rx_credit < 2 ^ 6) :
    ((bridgeComb s o).status_data_available = o.r_rdy ∧
      (bridgeComb s o).status_link_state = o.link_state ∧
      (bridgeComb s o).status_link_error_flags = o.link_error_flags ∧
      (bridgeComb s o).status_link_tx_credit = o.link_tx_credit ∧
      (bridgeComb s o).status_link_rx_credit = o.link_rx_credit) ∧
    (∀ (st : BridgeState) (v : Nat),
      bridgeStep st (BusOp.writeStatus v) = bridgeStep st BusOp.idle) := by
  refine ⟨⟨rfl, ?_, ?_, ?_, ?_⟩, fun st v => rfl⟩
  · exact Nat.mod_eq_of_lt (by omega)
  · exact Nat.mod_eq_of_lt hef
  · exact Nat.mod_eq_of_lt htc
  · exact Nat.mod_eq_of_lt hrc

/-- Witness for C2 at concrete in-range core outputs. -/
theorem C2_status_mirror_witness :
    (bridgeComb
        { control := ⟨false, false, false, false, false, false⟩,
          fifo_w := ⟨0, false⟩, fifo_r_we := false }
        ⟨7, true, false, 5, 9, 33, 12, 0, 0⟩).status_link_state = 5 :=
  ((C2_status_mirror
      { control := ⟨false, false, false, false, false, false⟩,
        fifo_w := ⟨0, false⟩, fifo_r_we := false }
      ⟨7, true, false, 5, 9, 33, 12, 0, 0⟩
      (by norm_num) (by norm_num) (by norm_num) (by norm_num)).1.2.1)

/-- C3 counterexample: with `time_master = false` the register map still
contains the `time` register, so the claim that it is absent when
time-distribution is disabled is false. -/
theorem C3_counterexample : "time" ∈ spwNodeCSRNames false := by decide

/-- C3 (amended): the `time` register, with its fields `time` (6 bits)
and `flags` (2 bits), is declared unconditionally: the register map is
identical for both values of `time_master`. -/
theorem C3_time_register_unconditional (tm : Bool) :
    "time" ∈ spwNodeCSRNames tm ∧
    time_csr ∈ spwNodeCSRs tm ∧
    fieldSize time_csr "time" = 6 ∧
    fieldSize time_csr "flags" = 2 ∧
    spwNodeCSRs tm = spwNodeCSRs true := by
  cases tm <;> exact ⟨by decide, by decide, by decide, by decide, rfl⟩

/-- C4: the comb block of lines 124-143 contains no assignment to the
fields of the `time` CSRStatus, so both read as their reset value 0 on
every cycle, whatever the core's `time_value` and `time_flags` outputs
are (in particular at `time_value = 5`, `time_flags = 1` the fields do
not mirror the signals). -/
theorem C4_time_csr_not_wired (s : BridgeState) (o : CoreOutputs) :
    (bridgeComb s o).time_time = 0 ∧ (bridgeComb s o).time_flags = 0 :=
  ⟨rfl, rfl⟩

/-- C5: a host write of a byte `v` to the `fifo_w` register drives
`w_en` high for exactly that one cycle with `w_data = v` presented in
the same cycle (lines 138-139); on the following cycle, if it carries no
new `fifo_w` write, `w_en` is low again. -/
theorem C5_fifo_write_path (s : BridgeState) (o : CoreOutputs) (v : Nat)
    (hv : v < 2 ^ 8) (op : BusOp) (hop : ∀ w, op ≠ BusOp.writeFifoW w) :
    (bridgeComb (bridgeStep s (BusOp.writeFifoW v)) o).w_en = true ∧
    (bridgeComb (bridgeStep s (BusOp.writeFifoW v)) o).w_data = v ∧
    (bridgeComb (bridgeStep (bridgeStep s (BusOp.writeFifoW v)) op) o).w_en = false := by
  refine ⟨rfl, ?_, ?_⟩
  · show v % 2 ^ 8 % 2 ^ 8 = v
    rw [Nat.mod_mod_of_dvd v (dvd_refl _), Nat.mod_eq_of_lt hv]
  · cases op with
    | writeFifoW w => exact absurd rfl (hop w)
    | _ => rfl

/-- Witness for C5: writing byte 0x55 pulses `w_en` for one cycle with
`w_data = 0x55`, and an idle following cycle deasserts `w_en`. -/
theorem C5_fifo_write_path_witness :
    (bridgeComb (bridgeStep
        { control := ⟨false, false, false, false, false, false⟩,
          fifo_w := ⟨0, false⟩, fifo_r_we := false }
        (BusOp.writeFifoW 0x55)) ⟨0, false, false, 0, 0, 0, 0, 0, 0⟩).w_en = true ∧
    (bridgeComb (bridgeStep
        { control := ⟨false, false, false, false, false, false⟩,
          fifo_w := ⟨0, false⟩, fifo_r_we := false }
        (BusOp.writeFifoW 0x55)) ⟨0, false, false, 0, 0, 0, 0, 0, 0⟩).w_data = 0x55 ∧
    (bridgeComb (bridgeStep (bridgeStep
        { control := ⟨false, false, false, false, false, false⟩,
          fifo_w := ⟨0, false⟩, fifo_r_we := false }
        (BusOp.writeFifoW 0x55)) BusOp.idle) ⟨0, false, false, 0, 0, 0, 0, 0, 0⟩).w_en
      = false :=
  (C5_fifo_write_path
    { control := ⟨false, false, false, false, false, false⟩,
      fifo_w := ⟨0, false⟩, fifo_r_we := false }
    ⟨0, false, false, 0, 0, 0, 0, 0, 0⟩ 0x55 (by norm_num) BusOp.idle
    (by intro w h; cases h))

/-- C6 counterexample: two core-output vectors that differ only in
`w_rdy` produce identical combinational outputs — in particular an
identical `status` register — so no status field mirrors `w_rdy`, and
the claimed write-ready back-pressure bit does not exist. -/
theorem C6_counterexample :
    (CoreOutputs.mk 0 false false 0 0 0 0 0 0).w_rdy
        ≠ (CoreOutputs.mk 0 false true 0 0 0 0 0 0).w_rdy ∧
    bridgeComb
        { control := ⟨false, false, false, false, false, false⟩,
          fifo_w := ⟨0, false⟩, fifo_r_we := false }
        (CoreOutputs.mk 0 false false 0 0 0 0 0 0)
      = bridgeComb
        { control := ⟨false, false, false, false, false, false⟩,
          fifo_w := ⟨0, false⟩, fifo_r_we := false }
        (CoreOutputs.mk 0 false true 0 0 0 0 0 0) := by
  exact ⟨by decide, by decide⟩

/-- C6 (amended): the core's `w_rdy` signal is not exposed to the host
at all — the `status` register's fields are exactly `data_available`,
`link_state`, `link_error_flags`, `link_tx_credit`, `link_rx_credit`
(no write-ready field), and every combinational output of the bridge is
independent of `w_rdy`; the bridge itself never blocks or queues writes:
`w_en` is driven purely by the `fifo_w` write strobe regardless of
`w_rdy`. -/
theorem C6_no_wrdy_exposure (s : BridgeState) (o : CoreOutputs) (b : Bool) :
    bridgeComb s { o with w_rdy := b } = bridgeComb s o ∧
    status_csr.fields.map CSRFieldDecl.fname =
      ["data_available", "link_state", "link_error_flags",
       "link_tx_credit", "link_rx_credit"] ∧
    (bridgeComb s o).w_en = s.fifo_w.re :=
  ⟨rfl, rfl, rfl⟩

/-- C7: `elaborate` raises `OSError(elabErrMsg)` exactly when the
external generator process exits non-zero, returns `None` exactly when
it exits zero, and performs no parameter validation of its own: the
source-clock frequency — zero or negative included — is passed through
verbatim on the command line, the exit status being the sole error
signal. -/
theorem C7_error_iff_nonzero_exit (proc : List String → Int × String)
    (cliPath : String) (p : ElabParams) (f : String) :
    ((elaborate proc cliPath p f).result = Except.error elabErrMsg ↔
      (proc (elabCmd cliPath p)).1 ≠ 0) ∧
    ((elaborate proc cliPath p f).result = Except.ok none ↔
      (proc (elabCmd cliPath p)).1 = 0) ∧
    ("--src-freq=" ++ toString p.src_freq) ∈ cliParams p := by
  refine ⟨?_, ?_, ?_⟩
  · by_cases h : (proc (elabCmd cliPath p)).1 = 0 <;> simp [elaborate, h]
  · by_cases h : (proc (elabCmd cliPath p)).1 = 0 <;> simp [elaborate, h]
  · cases hq : p.time_master <;> simp [cliParams, hq]

/-- C8 counterexample: with the external process exiting 0, the Python
function `elaborate` returns `None` — not the artifact path `out.v` the
claim says it returns to its caller. -/
theorem C8_counterexample :
    (elaborate (fun _ => (0, "module amaranth_spacewire_node; endmodule"))
        "cli.py"
        { time_master := true, src_freq := 1, reset_freq := 1, user_freq := 1,
          rx_tokens := 7, tx_tokens := 7 } "out.v").result
      ≠ Except.ok (some "out.v") ∧
    (elaborate (fun _ => (0, "module amaranth_spacewire_node; endmodule"))
        "cli.py"
        { time_master := true, src_freq := 1, reset_freq := 1, user_freq := 1,
          rx_tokens := 7, tx_tokens := 7 } "out.v").result
      = Except.ok none := by
  refine ⟨?_, rfl⟩
  intro h
  simp [elaborate] at h

/-- C8 (amended): on a zero exit status `elaborate` returns `None` and
writes the artifact to the caller-supplied path
`output_dir/gateware/amaranth_spacewire.v`; it is the caller
`do_finalize` that then registers that same path as an additional build
source. -/
theorem C8_success_registers_artifact (proc : List String → Int × String)
    (cliPath output_dir : String) (p : ElabParams)
    (h : (proc (elabCmd cliPath p)).1 = 0) :
    (do_finalize proc cliPath output_dir p).elab_effect.result = Except.ok none ∧
    (do_finalize proc cliPath output_dir p).elab_effect.outFile
      = output_dir ++ "/gateware/amaranth_spacewire.v" ∧
    (do_finalize proc cliPath output_dir p).added_sources
      = [output_dir ++ "/gateware/amaranth_spacewire.v"] := by
  simp [do_finalize, elaborate, h]

/-- Witness for C8 (amended) with a concrete always-succeeding process:
the registered source is the file the artifact was written to. -/
theorem C8_success_registers_artifact_witness :
    (do_finalize (fun _ => (0, "v-src")) "cli.py" "build"
        { time_master := false, src_freq := 0, reset_freq := -1, user_freq := 1,
          rx_tokens := 7, tx_tokens := 7 }).added_sources
      = ["build" ++ "/gateware/amaranth_spacewire.v"] :=
  (C8_success_registers_artifact (fun _ => (0, "v-src")) "cli.py" "build"
    { time_master := false, src_freq := 0, reset_freq := -1, user_freq := 1,
      rx_tokens := 7, tx_tokens := 7 } rfl).2.2

/-- C9: the command line built by `elaborate` carries the source-clock,
reset and user/transmit frequencies and the RX/TX token counts as flag
arguments, carries `--time-master` exactly when the `time_master`
parameter is true, ends with the fixed action `generate --type=v`, and
the process's standard output is captured verbatim as the content of the
caller-supplied artifact file. -/
theorem C9_cli_serialization (proc : List String → Int × String)
    (cliPath : String) (p : ElabParams) (f : String) :
    ("--src-freq=" ++ toString p.src_freq) ∈ cliParams p ∧
    ("--reset-freq=" ++ toString p.reset_freq) ∈ cliParams p ∧
    ("--user-freq=" ++ toString p.user_freq) ∈ cliParams p ∧
    ("--rx-tokens=" ++ toString p.rx_tokens) ∈ cliParams p ∧
    ("--tx-tokens=" ++ toString p.tx_tokens) ∈ cliParams p ∧
    ("--time-master" ∈ cliParams p ↔ p.time_master = true) ∧
    (∃ pre, cliParams p = pre ++ ["generate", "--type=v"]) ∧
    (elaborate proc cliPath p f).content = (proc (elabCmd cliPath p)).2 ∧
    (elaborate proc cliPath p f).outFile = f := by
  refine ⟨?_, ?_, ?_, ?_, ?_, ?_, ?_, rfl, rfl⟩
  · cases hq : p.time_master <;> simp [cliParams, hq]
  · cases hq : p.time_master <;> simp [cliParams, hq]
  · cases hq : p.time_master <;> simp [cliParams, hq]
  · cases hq : p.time_master <;> simp [cliParams, hq]
  · cases hq : p.time_master <;> simp [cliParams, hq]
  · cases hq : p.time_master
    · simp only [Bool.false_eq_true, iff_false]
      intro hmem
      simp only [cliParams, hq, Bool.false_eq_true, if_false, List.nil_append,
        List.mem_cons, List.not_mem_nil, or_false] at hmem
      rcases hmem with h | h | h | h | h | h | h
      · exact ne_append_of_take_ne _ _ _ (by decide) h
      · exact ne_append_of_take_ne _ _ _ (by decide) h
      · exact ne_append_of_take_ne _ _ _ (by decide) h
      · exact ne_append_of_take_ne _ _ _ (by decide) h
      · exact ne_append_of_take_ne _ _ _ (by decide) h
      · exact absurd h (by decide)
      · exact absurd h (by decide)
    · simp [cliParams, hq]
  · cases hq : p.time_master
    · exact ⟨[ "--src-freq=" ++ toString p.src_freq,
               "--rx-tokens=" ++ toString p.rx_tokens,
               "--tx-tokens=" ++ toString p.tx_tokens,
               "--reset-freq=" ++ toString p.reset_freq,
               "--user-freq=" ++ toString p.user_freq ],
        by simp [cliParams, hq]⟩
    · exact ⟨[ "--time-master",
               "--src-freq=" ++ toString p.src_freq,
               "--rx-tokens=" ++ toString p.rx_tokens,
               "--tx-tokens=" ++ toString p.tx_tokens,
               "--reset-freq=" ++ toString p.reset_freq,
               "--user-freq=" ++ toString p.user_freq ],
        by simp [cliParams, hq]⟩

/-- C10: the `link_state` status field is declared 4 bits wide while the
core's `link_state` signal is declared 3 bits wide, so the assignment of
line 126 zero-extends: on every cycle the field equals the signal, never
exceeds 7, and its most significant bit (bit 3) is zero. -/
theorem C10_link_state_zero_extension (s : BridgeState) (o : CoreOutputs)
    (h : o.link_state < 2 ^ link_state_signal_width) :
    (bridgeComb s o).status_link_state = o.link_state ∧
    (bridgeComb s o).status_link_state ≤ 7 ∧
    Nat.testBit (bridgeComb s o).status_link_state 3 = false ∧
    fieldSize status_csr "link_state" = 4 ∧
    link_state_signal_width = 3 := by
  have h8 : o.link_state < 2 ^ 3 := h
  have he : (bridgeComb s o).status_link_state = o.link_state :=
    Nat.mod_eq_of_lt (by omega)
  refine ⟨he, ?_, ?_, by decide, rfl⟩
  · rw [he]; omega
  · rw [he]; exact Nat.testBit_eq_false_of_lt h8

/-- Witness for C10 at a concrete 3-bit link-state value 5. -/
theorem C10_link_state_zero_extension_witness :
    (bridgeComb
        { control := ⟨false, false, false, false, false, false⟩,
          fifo_w := ⟨0, false⟩, fifo_r_we := false }
        ⟨0, false, false, 5, 0, 0, 0, 0, 0⟩).status_link_state = 5 ∧
    Nat.testBit (bridgeComb
        { control := ⟨false, false, false, false, false, false⟩,
          fifo_w := ⟨0, false⟩, fifo_r_we := false }
        ⟨0, false, false, 5, 0, 0, 0, 0, 0⟩).status_link_state 3 = false :=
  ⟨(C10_link_state_zero_extension
      { control := ⟨false, false, false, false, false, false⟩,
        fifo_w := ⟨0, false⟩, fifo_r_we := false }
      ⟨0, false, false, 5, 0, 0, 0, 0, 0⟩ (by decide)).1,
   (C10_link_state_zero_extension
      { control := ⟨false, false, false, false, false, false⟩,
        fifo_w := ⟨0, false⟩, fifo_r_we := false }
      ⟨0, false, false, 5, 0, 0, 0, 0, 0⟩ (by decide)).2.2.1⟩

end SpW
